import Mathlib

/-!
Shallow embedding of the query-classification and insight-synthesis engine of
the mixpanel-agent repository (src/productAnalyticsAgent.js, src/mockData.js,
src/api-server.js, src/unnamed/part_000), together with proofs about it.

Conventions used throughout:
* JS strings are modelled as Lean `String` / `List Char`; `toLowerCase` is
  modelled as per-character ASCII lowering (all the strings involved are ASCII).
* JS numbers are modelled as exact rationals (`ℚ`); every numeric literal in
  the modelled code is a short decimal, and the only arithmetic performed on
  them is `+`, `/`, comparison and clamping, so exact rational arithmetic
  coincides with the JS double arithmetic on every value that actually occurs.
  The one place where JS float semantics is observable — `0/0` producing `NaN`
  in `generateExecutiveSummary` — is modelled explicitly with the `JsNum` type.
* A JS object field that may be absent is an `Option`; JS truthiness tests on
  such fields are modelled by dedicated helpers (`jsTruthyStr`, `jsGtNum`,
  `jsLtNum`) which treat `undefined` exactly as JS comparison/truthiness does.
* A JS expression that can throw (reading a property of `undefined`) is
  modelled in `Except String`.
-/

namespace MixpanelAgent

/-- Characters of a string; the classifier works on `List Char`. -/
abbrev Str := List Char

/-- ASCII model of `String.prototype.toLowerCase()` (per-character lowering;
every string fed to the classifier in this repository is ASCII). -/
def lowerL (s : Str) : Str := s.map Char.toLower

/-- Tests whether the first argument occurs at the start of the second. -/
def isPrefixL : Str → Str → Bool
  | [], _ => true
  | _ :: _, [] => false
  | a :: as, b :: bs => a == b && isPrefixL as bs

/-- Substring test: whether the first argument occurs as a contiguous
substring of the second; this is JS `includes` (in particular the empty
needle matches every string, exactly as in JS). -/
def containsSub : Str → Str → Bool
  | needle, [] => isPrefixL needle []
  | needle, b :: bs => isPrefixL needle (b :: bs) || containsSub needle bs

/-- JS `hay.includes(needle)` with the receiver first. -/
def includesL (hay needle : Str) : Bool := containsSub needle hay

/-- JS split on the single space character, keeping empty pieces: splitting
the empty string gives one empty piece, and splitting a string of n spaces
gives n+1 empty pieces. -/
def splitSp : Str → List Str
  | [] => [[]]
  | c :: rest =>
    match splitSp rest with
    | [] => [[]]
    | p :: ps => if c = ' ' then [] :: p :: ps else (c :: p) :: ps

/-! ### The keyword rule list of `processNaturalLanguageQuery`
(src/productAnalyticsAgent.js lines 23–135).  The twelve sequential
`if` statements testing `lowerQuery.includes` are represented as an ordered rule
list; each rule fires on a disjunction of trigger substrings except the
`feature_adoption` rule, which requires the conjunction
on both of the substrings `features` and `adoption`. -/

/-- The firing condition of a rule: any of the triggers, or all of them. -/
inductive Trigger where
  | anyOf : List String → Trigger
  | allOf : List String → Trigger

/-- One keyword rule: a firing condition and the category it selects. -/
structure Rule where
  trigger : Trigger
  category : String

/-- Whether a rule fires on the (already lower-cased) query. -/
def ruleFires (lowerQuery : Str) (r : Rule) : Bool :=
  match r.trigger with
  | .anyOf ts => ts.any fun t => includesL lowerQuery t.data
  | .allOf ts => ts.all fun t => includesL lowerQuery t.data

/-- The twelve keyword rules, in the exact order of the `if` chain in
`processNaturalLanguageQuery`. -/
def rules : List Rule :=
  [ ⟨.anyOf ["how many users", "user count", "total users"], "user_metrics"⟩,
    ⟨.anyOf ["revenue", "mrr", "money", "income"], "revenue_metrics"⟩,
    ⟨.anyOf ["engagement", "active", "usage"], "engagement_metrics"⟩,
    ⟨.anyOf ["growth", "growing", "trend"], "growth_metrics"⟩,
    ⟨.allOf ["features", "adoption"], "feature_adoption"⟩,
    ⟨.anyOf ["retention", "stay", "return"], "retention_metrics"⟩,
    ⟨.anyOf ["drop", "abandon", "onboarding", "leave"], "onboarding_metrics"⟩,
    ⟨.anyOf ["support", "help", "tickets", "issues"], "support_metrics"⟩,
    ⟨.anyOf ["convert", "upgrade", "paid", "trial"], "conversion_metrics"⟩,
    ⟨.anyOf ["performance", "speed", "slow", "load"], "performance_metrics"⟩,
    ⟨.anyOf ["competitor", "market", "competitive"], "competitive_metrics"⟩,
    ⟨.anyOf ["health", "nps", "satisfaction"], "product_health"⟩ ]

/-- The keyword-rule phase of classification: the category of the first rule
that fires, if any. -/
def keywordClassify (lowerQuery : Str) : Option String :=
  (rules.find? fun r => ruleFires lowerQuery r).map Rule.category

/-! ### The mock data catalog (src/mockData.js)
The `searchData` fallback inspects `JSON.stringify(data).toLowerCase()` for
each category record, so the records are embedded as JSON trees mirroring the
object literal `mockBusinessData` in src/mockData.js, together with a
serializer `jstr` reproducing the output of `JSON.stringify` on them.
Numeric leaves carry the decimal string that `JSON.stringify` prints for the
corresponding JS number literal (this differs from the source literal only
for `0.20` -> `0.2`, `0.10` -> `0.1`, `16.60` -> `16.6`, `332.00` -> `332`,
`1.0` -> `1`, `0.70` -> `0.7`). -/

/-- A JSON value as produced by the object literals in src/mockData.js. -/
inductive J where
  | num : String → J
  | str : String → J
  | nul : J
  | arr : List J → J
  | obj : List (String × J) → J

mutual
/-- Output of `JSON.stringify` on a `J` tree (compact form, key order as
written, which is how JS serializes the literal objects of src/mockData.js). -/
def jstr : J → String
  | .num s => s
  | .str s => "\"" ++ s ++ "\""
  | .nul => "null"
  | .arr l => "[" ++ jstrArr l ++ "]"
  | .obj l => "\x7b" ++ jstrObj l ++ "\x7d"

/-- Comma-separated serialization of the elements of a JSON array. -/
def jstrArr : List J → String
  | [] => ""
  | [x] => jstr x
  | x :: y :: xs => jstr x ++ "," ++ jstrArr (y :: xs)

/-- Comma-separated serialization of the key-value pairs of a JSON object. -/
def jstrObj : List (String × J) → String
  | [] => ""
  | [(k, v)] => "\"" ++ k ++ "\":" ++ jstr v
  | (k, v) :: e :: xs => "\"" ++ k ++ "\":" ++ jstr v ++ "," ++ jstrObj (e :: xs)
end

/-- The `user_metrics` record of `mockBusinessData`. -/
def userMetricsJ : J := .obj
  [ ("total_users", .num "45230"),
    ("active_users_30d", .num "18650"),
    ("new_users_30d", .num "2340"),
    ("churned_users_30d", .num "890"),
    ("growth_rate", .num "0.15"),
    ("avg_session_duration", .num "8.5"),
    ("user_segments", .obj
      [ ("freemium", .num "32450"),
        ("premium", .num "8920"),
        ("enterprise", .num "3860") ]),
    ("geographic_distribution", .obj
      [ ("North America", .num "18500"),
        ("Europe", .num "12300"),
        ("Asia Pacific", .num "8900"),
        ("Other", .num "5530") ]),
    ("acquisition_channels", .obj
      [ ("organic_search", .num "0.35"),
        ("paid_ads", .num "0.25"),
        ("referrals", .num "0.2"),
        ("social_media", .num "0.12"),
        ("direct", .num "0.08") ]) ]

/-- The `revenue_metrics` record of `mockBusinessData`. -/
def revenueMetricsJ : J := .obj
  [ ("mrr", .num "285000"),
    ("arr", .num "3420000"),
    ("revenue_30d", .num "310000"),
    ("revenue_growth", .num "0.15"),
    ("avg_revenue_per_user", .num "16.6"),
    ("ltv", .num "332"),
    ("revenue_by_segment", .obj
      [ ("freemium", .num "0"),
        ("premium", .num "178000"),
        ("enterprise", .num "132000") ]),
    ("revenue_trends", .obj
      [ ("jan", .num "245000"),
        ("feb", .num "258000"),
        ("mar", .num "271000"),
        ("apr", .num "285000") ]),
    ("churn_rate", .num "0.05"),
    ("expansion_revenue", .num "45000") ]

/-- The `engagement_metrics` record of `mockBusinessData`. -/
def engagementMetricsJ : J := .obj
  [ ("daily_active_users", .num "12450"),
    ("weekly_active_users", .num "18650"),
    ("monthly_active_users", .num "35200"),
    ("avg_session_duration", .num "8.5"),
    ("bounce_rate", .num "0.32"),
    ("pages_per_session", .num "5.4"),
    ("sessions_per_user", .num "12.3"),
    ("top_engaged_features", .arr [.str "dashboard", .str "reports", .str "analytics"]),
    ("engagement_score", .num "7.8"),
    ("stickiness", .num "0.35"),
    ("power_users", .num "4200") ]

/-- The `growth_metrics` record of `mockBusinessData`. -/
def growthMetricsJ : J := .obj
  [ ("user_growth_rate", .num "0.15"),
    ("revenue_growth_rate", .num "0.18"),
    ("month_over_month", .num "0.12"),
    ("quarter_over_quarter", .num "0.35"),
    ("signup_trend", .str "increasing"),
    ("churn_trend", .str "stable"),
    ("net_growth", .num "0.1"),
    ("growth_drivers", .arr [.str "organic_search", .str "referrals", .str "product_hunt"]),
    ("growth_bottlenecks", .arr [.str "onboarding_friction", .str "pricing_sensitivity"]),
    ("viral_coefficient", .num "0.3"),
    ("payback_period", .num "8.2") ]

/-- The `feature_adoption` record of `mockBusinessData`. -/
def featureAdoptionJ : J := .obj
  [ ("topFeatures", .arr
      [ .obj [("name", .str "dashboard"), ("adoption_rate", .num "0.89"),
              ("time_to_adopt", .num "1.2"), ("satisfaction", .num "4.6")],
        .obj [("name", .str "reports"), ("adoption_rate", .num "0.67"),
              ("time_to_adopt", .num "3.4"), ("satisfaction", .num "4.2")],
        .obj [("name", .str "integrations"), ("adoption_rate", .num "0.45"),
              ("time_to_adopt", .num "7.1"), ("satisfaction", .num "4.4")],
        .obj [("name", .str "api"), ("adoption_rate", .num "0.23"),
              ("time_to_adopt", .num "12.5"), ("satisfaction", .num "4.8")],
        .obj [("name", .str "mobile_app"), ("adoption_rate", .num "0.34"),
              ("time_to_adopt", .num "5.2"), ("satisfaction", .num "3.9")] ]),
    ("underused", .str "integrations"),
    ("fastest_growing", .str "dashboard"),
    ("most_valuable", .str "api"),
    ("feature_requests", .arr
      [ .obj [("feature", .str "advanced_filters"), ("votes", .num "234")],
        .obj [("feature", .str "team_collaboration"), ("votes", .num "189")],
        .obj [("feature", .str "custom_dashboards"), ("votes", .num "156")] ]) ]

/-- The `retention_metrics` record of `mockBusinessData`. -/
def retentionMetricsJ : J := .obj
  [ ("topAction", .str "complete_profile"),
    ("correlationStrength", .num "0.78"),
    ("retentionLift", .num "3.2"),
    ("day1_retention", .num "0.78"),
    ("day7_retention", .num "0.52"),
    ("day30_retention", .num "0.28"),
    ("day90_retention", .num "0.18"),
    ("cohort_retention", .obj
      [ ("2024-01", .obj [("month_1", .num "0.85"), ("month_3", .num "0.65"), ("month_6", .num "0.45")]),
        ("2024-02", .obj [("month_1", .num "0.82"), ("month_3", .num "0.68"), ("month_6", .num "0.48")]),
        ("2024-03", .obj [("month_1", .num "0.88"), ("month_3", .num "0.71"), ("month_6", .nul)]),
        ("2024-04", .obj [("month_1", .num "0.84"), ("month_3", .nul), ("month_6", .nul)]) ]),
    ("retention_drivers", .arr
      [ .obj [("action", .str "complete_profile"), ("impact", .num "3.2")],
        .obj [("action", .str "connect_integration"), ("impact", .num "2.8")],
        .obj [("action", .str "create_first_report"), ("impact", .num "2.1")],
        .obj [("action", .str "invite_team_member"), ("impact", .num "1.9")] ]) ]

/-- The `onboarding_metrics` record of `mockBusinessData`. -/
def onboardingMetricsJ : J := .obj
  [ ("biggest", .str "email_verification"),
    ("dropOffRate", .num "0.42"),
    ("completion_rate", .num "0.73"),
    ("avg_time_to_complete", .num "8.5"),
    ("success_factors", .arr
      [.str "clear_instructions", .str "quick_verification", .str "immediate_value"]),
    ("onboarding_steps", .arr
      [ .obj [("step", .str "signup"), ("completion", .num "1"), ("avg_time", .num "2.1")],
        .obj [("step", .str "email_verification"), ("completion", .num "0.58"), ("avg_time", .num "15.2")],
        .obj [("step", .str "profile_setup"), ("completion", .num "0.48"), ("avg_time", .num "4.3")],
        .obj [("step", .str "first_action"), ("completion", .num "0.41"), ("avg_time", .num "6.8")],
        .obj [("step", .str "tutorial_completion"), ("completion", .num "0.35"), ("avg_time", .num "8.9")] ]),
    ("drop_off_reasons", .arr
      [ .obj [("reason", .str "email_verification_delay"), ("percentage", .num "0.35")],
        .obj [("reason", .str "complex_setup"), ("percentage", .num "0.28")],
        .obj [("reason", .str "unclear_value_prop"), ("percentage", .num "0.22")],
        .obj [("reason", .str "technical_issues"), ("percentage", .num "0.15")] ]) ]

/-- The `support_metrics` record of `mockBusinessData`. -/
def supportMetricsJ : J := .obj
  [ ("open_tickets", .num "245"),
    ("avg_resolution_time", .num "4.2"),
    ("satisfaction_score", .num "4.3"),
    ("response_time", .num "0.8"),
    ("escalation_rate", .num "0.12"),
    ("top_issues", .arr [.str "billing", .str "technical", .str "onboarding"]),
    ("ticket_categories", .obj
      [ ("billing", .num "89"),
        ("technical", .num "156"),
        ("feature_request", .num "34"),
        ("bug_report", .num "67"),
        ("onboarding", .num "45") ]),
    ("support_channels", .obj
      [ ("email", .num "0.45"),
        ("chat", .num "0.35"),
        ("phone", .num "0.15"),
        ("self_service", .num "0.05") ]),
    ("resolution_by_tier", .obj
      [ ("tier1", .num "0.7"),
        ("tier2", .num "0.25"),
        ("tier3", .num "0.05") ]) ]

/-- The `conversion_metrics` record of `mockBusinessData`. -/
def conversionMetricsJ : J := .obj
  [ ("trial_to_paid", .num "0.28"),
    ("signup_to_activation", .num "0.72"),
    ("freemium_to_premium", .num "0.15"),
    ("visitor_to_signup", .num "0.019"),
    ("conversion_funnel", .obj
      [ ("visitors", .num "125000"),
        ("signups", .num "2340"),
        ("activated", .num "1685"),
        ("trial", .num "890"),
        ("paid", .num "249") ]),
    ("conversion_by_source", .obj
      [ ("organic_search", .num "0.31"),
        ("paid_ads", .num "0.18"),
        ("referrals", .num "0.42"),
        ("social_media", .num "0.08") ]),
    ("time_to_convert", .obj
      [ ("trial_to_paid", .num "12.5"),
        ("freemium_to_premium", .num "45.2") ]) ]

/-- The `performance_metrics` record of `mockBusinessData`. -/
def performanceMetricsJ : J := .obj
  [ ("avg_page_load", .num "2.3"),
    ("api_response_time", .num "145"),
    ("uptime", .num "0.999"),
    ("error_rate", .num "0.002"),
    ("performance_score", .num "92"),
    ("core_web_vitals", .obj
      [ ("lcp", .num "1.8"),
        ("fid", .num "65"),
        ("cls", .num "0.08") ]),
    ("mobile_performance", .num "85"),
    ("desktop_performance", .num "96"),
    ("geographic_performance", .obj
      [ ("North America", .num "1.9"),
        ("Europe", .num "2.1"),
        ("Asia Pacific", .num "2.8"),
        ("Other", .num "3.2") ]) ]

/-- The `competitive_metrics` record of `mockBusinessData`. -/
def competitiveMetricsJ : J := .obj
  [ ("market_share", .num "0.08"),
    ("competitor_comparison", .obj
      [ ("feature_parity", .num "0.85"),
        ("pricing_competitiveness", .num "0.72"),
        ("user_satisfaction", .num "0.91") ]),
    ("win_loss_analysis", .obj
      [ ("win_rate", .num "0.34"),
        ("top_win_reasons", .arr [.str "better_ux", .str "pricing", .str "customer_support"]),
        ("top_loss_reasons", .arr
          [.str "missing_features", .str "integration_limitations", .str "enterprise_requirements"]) ]) ]

/-- The `product_health` record of `mockBusinessData`. -/
def productHealthJ : J := .obj
  [ ("overall_score", .num "78"),
    ("user_satisfaction", .num "4.3"),
    ("nps_score", .num "42"),
    ("product_market_fit", .num "0.75"),
    ("technical_debt_score", .num "0.25"),
    ("innovation_index", .num "0.68"),
    ("time_to_value", .num "3.2") ]

/-- The catalog `mockBusinessData`, in object-literal (= iteration) order. -/
def mockBusinessData : List (String × J) :=
  [ ("user_metrics", userMetricsJ),
    ("revenue_metrics", revenueMetricsJ),
    ("engagement_metrics", engagementMetricsJ),
    ("growth_metrics", growthMetricsJ),
    ("feature_adoption", featureAdoptionJ),
    ("retention_metrics", retentionMetricsJ),
    ("onboarding_metrics", onboardingMetricsJ),
    ("support_metrics", supportMetricsJ),
    ("conversion_metrics", conversionMetricsJ),
    ("performance_metrics", performanceMetricsJ),
    ("competitive_metrics", competitiveMetricsJ),
    ("product_health", productHealthJ) ]

/-- The `searchData` helper of src/mockData.js (lines 258-269), returning the
keys of its `results` object in catalog iteration order: split the keyword
string on spaces after lowering, and keep every category for which some token
is a substring of the category name or of the lower-cased serialized record. -/
def searchData (keywords : String) : List String :=
  let searchTerms := splitSp (lowerL keywords.data)
  (mockBusinessData.filter fun e =>
      searchTerms.any fun term =>
        includesL e.1.data term || includesL (lowerL (jstr e.2).data) term).map
    (·.1)

/-- The part of a query result that the classification contract determines:
the selected category and whether it was reached through the fallback search.
The keyword and search paths of `processNaturalLanguageQuery` additionally
spread the record fields of the selected category into the result object, and
the final fallback instead carries a static help message with eight example
questions; neither payload affects any property proved here. -/
structure QueryResult where
  type : String
  search_matched : Bool
deriving DecidableEq

/-- The classifier `processNaturalLanguageQuery`
(src/productAnalyticsAgent.js lines 23-163): lower-case the query, take the
first keyword rule that fires; otherwise take the first category matched by
`searchData` (flagged `search_matched: true`); otherwise the sentinel
`general_response`. -/
def processNaturalLanguageQuery (query : String) : QueryResult :=
  let lowerQuery := lowerL query.data
  match keywordClassify lowerQuery with
  | some cat => ⟨cat, false⟩
  | none =>
    match searchData query with
    | c :: _ => ⟨c, true⟩
    | [] => ⟨"general_response", false⟩

/-! ### Insights and the orchestrator
(class `ProductAnalyticsAgent`, src/productAnalyticsAgent.js lines 167-260). -/

/-- An insight object as pushed by `synthesizeInsights`. -/
structure Insight where
  type : String
  discovery : String
  confidence : ℚ
  recommendation : String
  expectedImpact : String
deriving DecidableEq

/-- A JS number that may be `NaN`. -/
inductive JsNum where
  | nan : JsNum
  | val : ℚ → JsNum
deriving DecidableEq

/-- JS division as used in `generateExecutiveSummary`: a zero divisor there
only ever occurs as `0/0` (an empty insight list sums to `0`), which JS
evaluates to `NaN`; a nonzero dividend with zero divisor cannot arise. -/
def jsDiv (a b : ℚ) : JsNum := if b = 0 then .nan else .val (a / b)

/-- Multiplication of a possibly-NaN JS number by a constant (`NaN` absorbs). -/
def jsMul (x : JsNum) (c : ℚ) : JsNum :=
  match x with
  | .nan => .nan
  | .val q => .val (q * c)

/-- JS truthiness of a possibly-absent string field (`undefined` and the
empty string are falsy). -/
def jsTruthyStr (o : Option String) : Bool :=
  match o with
  | none => false
  | some s => s != ""

/-- JS comparison `field > c` on a possibly-absent numeric field: any
comparison with `undefined` is false. -/
def jsGtNum (o : Option ℚ) (c : ℚ) : Bool :=
  match o with
  | none => false
  | some q => c < q

/-- JS comparison `field < c` on a possibly-absent numeric field: any
comparison with `undefined` is false. -/
def jsLtNum (o : Option ℚ) (c : ℚ) : Bool :=
  match o with
  | none => false
  | some q => q < c

/-- The fields of a classified record that `synthesizeInsights` and
`calculateMetrics` read; an absent field is `none`.  The catalog feature
array `topFeatures` is kept as the list of feature names, since only its
length is ever read. -/
structure OrchRecord where
  topAction : Option String := none
  underused : Option String := none
  biggest : Option String := none
  topFeatures : Option (List String) := none
  correlationStrength : Option ℚ := none
  dropOffRate : Option ℚ := none
deriving DecidableEq

/-- The argument object of `synthesizeInsights`, holding the three classified
query results of `analyzeUserBehavior`. -/
structure AnalysisData where
  featureAdoption : OrchRecord
  retentionDrivers : OrchRecord
  dropOffPoints : OrchRecord
deriving DecidableEq

/-- Insight 1 of `synthesizeInsights` (retention, confidence 0.89). -/
def retentionInsight (topAction : String) : Insight :=
  ⟨"retention",
   "Users who " ++ topAction ++ " retain 3x better",
   89 / 100,
   "Prompt all users to " ++ topAction ++ " in first session",
   "+15% 30-day retention"⟩

/-- Insight 2 of `synthesizeInsights` (adoption, confidence 0.85). -/
def adoptionInsight (underused : String) : Insight :=
  ⟨"adoption",
   "Only 12% use " ++ underused ++ " but it drives highest engagement",
   85 / 100,
   "Add tutorial for " ++ underused ++ " in onboarding",
   "+23% daily active users"⟩

/-- Insight 3 of `synthesizeInsights` (onboarding, confidence 0.92). -/
def onboardingInsight (biggest : String) : Insight :=
  ⟨"onboarding",
   "42% of users abandon at " ++ biggest,
   92 / 100,
   "Simplify " ++ biggest ++ " to single tap",
   "+38% activation rate"⟩

/-- The `insights` array as built by the three guarded pushes of
`synthesizeInsights`, in rule-evaluation order
(retention, then adoption, then onboarding). -/
def orchestratorInsights (data : AnalysisData) : List Insight :=
  (if jsTruthyStr data.retentionDrivers.topAction then
     [retentionInsight (data.retentionDrivers.topAction.getD "")] else [])
  ++ (if jsTruthyStr data.featureAdoption.underused then
       [adoptionInsight (data.featureAdoption.underused.getD "")] else [])
  ++ (if jsTruthyStr data.dropOffPoints.biggest then
       [onboardingInsight (data.dropOffPoints.biggest.getD "")] else [])

/-- Stable insertion used to model JS `Array.prototype.sort` with comparator
`(a, b) => b.confidence - a.confidence`: an element moves left past exactly
the elements of strictly smaller confidence, so equal-confidence elements
keep their original relative order (ECMAScript sort is stable). -/
def insertByConfDesc (x : Insight) : List Insight → List Insight
  | [] => [x]
  | y :: ys =>
    if y.confidence ≤ x.confidence then x :: y :: ys else y :: insertByConfDesc x ys

/-- Stable sort by descending confidence (model of the in-place
`insights.sort((a, b) => b.confidence - a.confidence)` in
`generateExecutiveSummary`). -/
def sortByConfDesc : List Insight → List Insight
  | [] => []
  | x :: xs => insertByConfDesc x (sortByConfDesc xs)

/-- The executive summary object.  In the source `averageConfidence` is the
string produced by formatting the number with `toFixed(1)` and appending a
percent sign; the model keeps the underlying JS number
`avgConfidence * 100` (which is `NaN` exactly when the formatted string is
the non-numeric `"NaN%"`). -/
structure ExecutiveSummary where
  totalInsights : Nat
  averageConfidence : JsNum
  topRecommendation : Option String
  criticalAction : Option String
deriving DecidableEq

/-- The `generateExecutiveSummary` method (src/productAnalyticsAgent.js
lines 242-252).  JS `Array.prototype.sort` sorts its receiver in place, so
the array passed by the caller is the sorted array afterwards: the model
returns the summary together with the sorted list the caller now holds.
`topInsight` is element 0 of the sorted array (`undefined`, hence `none`
projections, when the list is empty). -/
def generateExecutiveSummary (insights : List Insight) :
    ExecutiveSummary × List Insight :=
  let avgConfidence :=
    jsDiv (insights.foldl (fun sum i => sum + i.confidence) 0) (insights.length : ℚ)
  let sorted := sortByConfDesc insights
  let topInsight := sorted.head?
  (⟨insights.length,
    jsMul avgConfidence 100,
    topInsight.map Insight.recommendation,
    topInsight.map Insight.recommendation⟩,
   sorted)

/-- The three aggregate metrics of `calculateMetrics`; the JS `|| 0` defaults
coincide with `Option.getD 0` because a present value of `0` is falsy in JS
and is replaced by the same `0`. -/
structure AnalysisMetrics where
  adoptionHealth : Nat
  retentionStrength : ℚ
  onboardingEfficiency : ℚ
deriving DecidableEq

/-- The `calculateMetrics` method (src/productAnalyticsAgent.js lines 254-260). -/
def calculateMetrics (data : AnalysisData) : AnalysisMetrics :=
  ⟨(data.featureAdoption.topFeatures.map List.length).getD 0,
   data.retentionDrivers.correlationStrength.getD 0,
   1 - data.dropOffPoints.dropOffRate.getD 0⟩

/-- The value returned by `synthesizeInsights` and `analyzeUserBehavior`. -/
structure AnalysisResult where
  insights : List Insight
  summary : ExecutiveSummary
  metrics : AnalysisMetrics
deriving DecidableEq

/-- The `synthesizeInsights` method (src/productAnalyticsAgent.js lines
199-240): build the insight list in rule order, then produce the summary.
The returned object captures the same array reference that
`generateExecutiveSummary` has just sorted in place, so the `insights` field
of the result is the sorted list. -/
def synthesizeInsights (data : AnalysisData) : AnalysisResult :=
  let ins := orchestratorInsights data
  let sres := generateExecutiveSummary ins
  ⟨sres.2, sres.1, calculateMetrics data⟩

/-- The projection of each catalog record onto the six fields the
orchestrator reads; every category other than the three listed lacks all six
fields (see src/mockData.js). -/
def getRecordFields : String → OrchRecord
  | "feature_adoption" =>
    { underused := some "integrations",
      topFeatures := some ["dashboard", "reports", "integrations", "api", "mobile_app"] }
  | "retention_metrics" =>
    { topAction := some "complete_profile", correlationStrength := some (78 / 100) }
  | "onboarding_metrics" =>
    { biggest := some "email_verification", dropOffRate := some (42 / 100) }
  | _ => {}

/-- The `analyzeUserBehavior` method (src/productAnalyticsAgent.js lines
174-197): route the three fixed questions through the classifier, attach the
record of the selected category, and synthesize. -/
def analyzeUserBehavior : AnalysisResult :=
  let featureAdoption :=
    processNaturalLanguageQuery "Which features have the highest adoption in first week?"
  let retentionDrivers :=
    processNaturalLanguageQuery "What actions correlate with 30-day retention?"
  let dropOffPoints :=
    processNaturalLanguageQuery "Where do users drop off in the onboarding flow?"
  synthesizeInsights
    ⟨getRecordFields featureAdoption.type,
     getRecordFields retentionDrivers.type,
     getRecordFields dropOffPoints.type⟩

/-! ### The per-category insight synthesizer
(`generateInsightsFromResult`, src/unnamed/part_000 lines 392-476, and the
REST variant in src/api-server.js lines 351-402). -/

/-- The nested `win_loss_analysis` object of a competitive-metrics record. -/
structure WinLoss where
  win_rate : Option ℚ := none
deriving DecidableEq

/-- A classified query result as read by `generateInsightsFromResult`: its
`type` tag plus the fields the seven category cases inspect (absent = `none`). -/
structure SynthResult where
  type : String
  growth_rate : Option ℚ := none
  revenue_growth : Option ℚ := none
  topAction : Option String := none
  retentionLift : Option ℚ := none
  dropOffRate : Option ℚ := none
  biggest : Option String := none
  underused : Option String := none
  nps_score : Option ℚ := none
  win_loss_analysis : Option WinLoss := none
deriving DecidableEq

/-- Decimal digits of a fractional part `0 ≤ q < 1` (fuel-bounded; every
number interpolated in this repository has a short terminating expansion). -/
def fracDigits : Nat → ℚ → List Char
  | 0, _ => []
  | fuel + 1, q =>
    if q = 0 then []
    else
      let d := ⌊q * 10⌋
      Char.ofNat (48 + d.toNat) :: fracDigits fuel (q * 10 - (d : ℚ))

/-- Rendering of a non-negative JS number by string interpolation
(`15` prints as `15`, `3.2` as `3.2`). -/
def jsNumToString (q : ℚ) : String :=
  let i := ⌊q⌋
  let f := q - (i : ℚ)
  if f = 0 then toString i else toString i ++ "." ++ String.mk (fracDigits 10 f)

/-- JS `toFixed(1)` on a non-negative number (the call sites only pass exact
multiples of one tenth, so no tie-breaking is exercised). -/
def toFixed1 (q : ℚ) : String :=
  let t := ⌊q * 10 + 1 / 2⌋
  toString (t / 10) ++ "." ++ toString (t % 10)

/-- JS `toFixed(0)` on a non-negative number. -/
def toFixed0 (q : ℚ) : String := toString ⌊q + 1 / 2⌋

/-- String interpolation of a possibly-absent string field (JS prints the
text `undefined` for an absent field). -/
def interpStr (o : Option String) : String := o.getD "undefined"

/-- String interpolation of a possibly-absent numeric field. -/
def interpNum (o : Option ℚ) : String :=
  match o with
  | none => "undefined"
  | some q => jsNumToString q

/-- An insight object as pushed by `generateInsightsFromResult` in
src/unnamed/part_000 (these carry no `type` key). -/
structure SynthInsight where
  discovery : String
  confidence : ℚ
  recommendation : String
  expectedImpact : String
deriving DecidableEq

/-- The `generateInsightsFromResult` method of src/unnamed/part_000 (lines
392-476): a `switch` on `result.type` with seven guarded cases and an
implicit empty default.  Six of the guards compare or truth-test a direct
field, which is safe on an absent field; the `competitive_metrics` guard
reads `result.win_loss_analysis.win_rate`, which throws a `TypeError` when
`win_loss_analysis` itself is absent — modelled as `Except.error`. -/
def generateInsightsFromResult (result : SynthResult) :
    Except String (List SynthInsight) :=
  if result.type = "user_metrics" then
    .ok (if jsGtNum result.growth_rate (1 / 10) then
      [⟨"Strong user growth at " ++ toFixed1 (result.growth_rate.getD 0 * 100)
          ++ "% indicates healthy market demand",
        87 / 100,
        "Invest in user acquisition channels that are working",
        "+25% user growth acceleration"⟩]
    else [])
  else if result.type = "revenue_metrics" then
    .ok (if jsGtNum result.revenue_growth (1 / 10) then
      [⟨"Revenue growing at " ++ toFixed1 (result.revenue_growth.getD 0 * 100)
          ++ "% shows strong product-market fit",
        91 / 100,
        "Focus on upselling existing customers to premium tiers",
        "+20% revenue growth"⟩]
    else [])
  else if result.type = "retention_metrics" then
    .ok (if jsTruthyStr result.topAction then
      [⟨"Users who " ++ interpStr result.topAction ++ " retain "
          ++ interpNum result.retentionLift ++ "x better",
        89 / 100,
        "Prompt all users to " ++ interpStr result.topAction ++ " in first session",
        "+15% 30-day retention"⟩]
    else [])
  else if result.type = "onboarding_metrics" then
    .ok (if jsGtNum result.dropOffRate (3 / 10) then
      [⟨toFixed0 (result.dropOffRate.getD 0 * 100) ++ "% drop-off at "
          ++ interpStr result.biggest ++ " is limiting activation",
        92 / 100,
        "Simplify " ++ interpStr result.biggest ++ " to reduce friction",
        "+38% activation rate"⟩]
    else [])
  else if result.type = "feature_adoption" then
    .ok (if jsTruthyStr result.underused then
      [⟨interpStr result.underused ++ " feature is underutilized but drives engagement",
        85 / 100,
        "Add tutorial for " ++ interpStr result.underused ++ " in onboarding",
        "+23% daily active users"⟩]
    else [])
  else if result.type = "product_health" then
    .ok (if jsLtNum result.nps_score 50 then
      [⟨"NPS score of " ++ interpNum result.nps_score
          ++ " indicates room for improvement in user satisfaction",
        88 / 100,
        "Focus on addressing top user pain points and feature requests",
        "+15 point NPS improvement"⟩]
    else [])
  else if result.type = "competitive_metrics" then
    match result.win_loss_analysis with
    | none => .error "TypeError: cannot read win_rate of undefined"
    | some w =>
      .ok (if jsLtNum w.win_rate (4 / 10) then
        [⟨"Win rate of " ++ toFixed1 (w.win_rate.getD 0 * 100)
            ++ "% suggests competitive disadvantages",
          86 / 100,
          "Address top loss reasons and strengthen win factors",
          "+10% win rate improvement"⟩]
      else [])
  else .ok []

/-- An insight object as pushed by the REST `generateInsightsFromResult`
(src/api-server.js lines 351-402); the `id` embeds `Date.now()` and the
`timestamp` an ISO date string, both ambient effects passed in as
parameters here. -/
structure ApiInsight where
  id : String
  discovery : String
  confidence : ℚ
  recommendation : String
  expectedImpact : String
  type : String
  generated_from : String
  timestamp : String
deriving DecidableEq

/-- The `generateInsightsFromResult` method of src/api-server.js (lines
351-402): only three category cases (`user_metrics`, `revenue_metrics`,
`retention_metrics`), all with safe direct-field guards, so it never throws.
`now` stands for `Date.now()` and `ts` for `new Date().toISOString()`. -/
def apiGenerateInsightsFromResult (now : Nat) (ts : String)
    (result : SynthResult) (question : String) : List ApiInsight :=
  if result.type = "user_metrics" then
    (if jsGtNum result.growth_rate (1 / 10) then
      [⟨"insight_" ++ toString now ++ "_growth",
        "Strong user growth at " ++ toFixed1 (result.growth_rate.getD 0 * 100)
          ++ "% indicates healthy market demand",
        87 / 100,
        "Invest in user acquisition channels that are working",
        "+25% user growth acceleration",
        "growth", question, ts⟩]
    else [])
  else if result.type = "revenue_metrics" then
    (if jsGtNum result.revenue_growth (1 / 10) then
      [⟨"insight_" ++ toString now ++ "_revenue",
        "Revenue growing at " ++ toFixed1 (result.revenue_growth.getD 0 * 100)
          ++ "% shows strong product-market fit",
        91 / 100,
        "Focus on upselling existing customers to premium tiers",
        "+20% revenue growth",
        "revenue", question, ts⟩]
    else [])
  else if result.type = "retention_metrics" then
    (if jsTruthyStr result.topAction then
      [⟨"insight_" ++ toString now ++ "_retention",
        "Users who " ++ interpStr result.topAction ++ " retain "
          ++ interpNum result.retentionLift ++ "x better",
        89 / 100,
        "Prompt all users to " ++ interpStr result.topAction ++ " in first session",
        "+15% 30-day retention",
        "retention", question, ts⟩]
    else [])
  else []

/-! ### The outcome tracker
(`trackOutcome` / `updateConfidence`, src/productAnalyticsAgent.js lines
263-290), and the agent state shared by the transport layers. -/

/-- The per-identifier counter triple stored in `this.patterns`. -/
structure Pattern where
  suggested : Nat
  implemented : Nat
  successful : Nat
deriving DecidableEq

/-- The `this.patterns` JS `Map`, as a lookup function. -/
def PatternMap := String → Option Pattern

/-- The map held by a freshly constructed agent (`new Map()`). -/
def emptyPatterns : PatternMap := fun _ => none

/-- Lookup with the lazy default of `trackOutcome`:
`this.patterns.get(insightId) || \x7b suggested: 0, implemented: 0, successful: 0 \x7d`. -/
def getPattern (m : PatternMap) (insightId : String) : Pattern :=
  (m insightId).getD ⟨0, 0, 0⟩

/-- The `updateConfidence` method (lines 284-290): `0.5` when the identifier
has no pattern or its `implemented` counter is `0`; otherwise the success
ratio clamped by `Math.min(0.95, Math.max(0.1, successRate))`. -/
def updateConfidence (m : PatternMap) (insightId : String) : ℚ :=
  match m insightId with
  | none => 1 / 2
  | some pattern =>
    if pattern.implemented = 0 then 1 / 2
    else
      min (95 / 100) (max (1 / 10)
        ((pattern.successful : ℚ) / (pattern.implemented : ℚ)))

/-- The `trackOutcome` method (lines 263-282): bump `suggested` always,
`implemented` when the flag is set, `successful` when additionally
`result.improved` holds; store the pattern back, then return
`updateConfidence` computed on the updated map.  The JS `result` argument is
represented by its only consulted field, the boolean `improved`. -/
def trackOutcome (m : PatternMap) (insightId : String)
    (implemented improved : Bool) : ℚ × PatternMap :=
  let pattern := getPattern m insightId
  let pattern := { pattern with suggested := pattern.suggested + 1 }
  let pattern :=
    if implemented then
      { pattern with
        implemented := pattern.implemented + 1,
        successful := pattern.successful + (if improved then 1 else 0) }
    else pattern
  let updated : PatternMap := fun x => if x = insightId then some pattern else m x
  (updateConfidence updated insightId, updated)

/-- One reported outcome (the arguments of one `trackOutcome` call). -/
structure OutcomeCall where
  id : String
  implemented : Bool
  improved : Bool

/-- The pattern map after a sequence of `trackOutcome` calls on a fresh agent. -/
def runOutcomes (calls : List OutcomeCall) : PatternMap :=
  calls.foldl (fun m c => (trackOutcome m c.id c.implemented c.improved).2) emptyPatterns

/-- The mutable state of a `ProductAnalyticsAgent`: the constructor (lines
167-172) initializes `this.insights = []` and `this.patterns = new Map()`. -/
structure AgentState where
  insights : List Insight
  patterns : PatternMap

/-- The state of `new ProductAnalyticsAgent()`. -/
def initialAgent : AgentState := ⟨[], emptyPatterns⟩

/-- The three core operations the transport layers invoke on the agent. -/
inductive AgentOp where
  | analyzeBehavior : AgentOp
  | query : String → AgentOp
  | outcome : String → Bool → Bool → AgentOp

/-- What each operation returns to its caller. -/
inductive OpOutput where
  | analysis : AnalysisResult → OpOutput
  | answer : QueryResult → OpOutput
  | confidence : ℚ → OpOutput

/-- One agent method call: `analyzeUserBehavior` and `query` only read the
static catalog; `trackOutcome` writes `this.patterns`; no method writes
`this.insights`. -/
def applyOp (st : AgentState) : AgentOp → AgentState × OpOutput
  | .analyzeBehavior => (st, .analysis analyzeUserBehavior)
  | .query q => (st, .answer (processNaturalLanguageQuery q))
  | .outcome id impl impr =>
    let r := trackOutcome st.patterns id impl impr
    ({ st with patterns := r.2 }, .confidence r.1)

/-- The agent state after a sequence of core operations. -/
def runOps (st : AgentState) (ops : List AgentOp) : AgentState :=
  ops.foldl (fun s op => (applyOp s op).1) st

/-- The stored-insight-listing route `GET /api/insights`
(src/api-server.js lines 209-247): read `this.agent.insights`, filter by
minimum confidence when `min_confidence > 0`, then by type when
`insight_type` is truthy (absent/null or empty string means no filter). -/
def apiListInsights (st : AgentState) (minConfidence : ℚ)
    (insightType : Option String) : List Insight :=
  let insights := st.insights
  let insights :=
    if 0 < minConfidence then
      insights.filter fun i => minConfidence ≤ i.confidence
    else insights
  if jsTruthyStr insightType then
    insights.filter fun i => i.type == insightType.getD ""
  else insights

/-- Whether an `Except` computation succeeded (JS: the call returned instead
of throwing). -/
def exceptOk {ε α : Type} : Except ε α → Bool
  | .ok _ => true
  | .error _ => false

/-! ## Theorems -/

attribute [local semireducible] Rat.mul Rat.inv Rat.add Rat.sub

/-- Generic first-hit lemma: if element `k` of a list satisfies the predicate
and no earlier element does, `find?` returns element `k`. -/
theorem findFirstHit {α : Type} (p : α → Bool) (l : List α) :
    ∀ (k : Nat) (hk : k < l.length),
      p (l.get ⟨k, hk⟩) = true →
      (∀ i (hi : i < k), p (l.get ⟨i, Nat.lt_trans hi hk⟩) = false) →
      l.find? p = some (l.get ⟨k, hk⟩) := by
  induction l with
  | nil => intro k hk; exact absurd hk (Nat.not_lt_zero k)
  | cons a t ih =>
    intro k hk hp hearlier
    cases k with
    | zero =>
      have hp2 : p a = true := hp
      rw [List.find?_cons_of_pos _ hp2]
      rfl
    | succ k =>
      have ha : p a = false := hearlier 0 (Nat.succ_pos k)
      rw [List.find?_cons_of_neg]
      · exact ih k (Nat.lt_of_succ_lt_succ hk) hp
          fun i hi => hearlier (i + 1) (Nat.succ_lt_succ hi)
      · simp [ha]

/-- C1: the classifier evaluates the keyword rules in the fixed priority
order of the rule list and the first rule that fires wins — if rule `k`
fires on the lower-cased question and no earlier rule fires, the result is
rule `k`'s category (whatever later rules would do); in particular every
question containing both the substring `revenue` (a rule-2 trigger) and the
substring `how many users` (a rule-1 trigger) classifies to `user_metrics`. -/
theorem classifier_first_rule_wins :
    (∀ (q : String) (k : Nat) (hk : k < rules.length),
        ruleFires (lowerL q.data) (rules.get ⟨k, hk⟩) = true →
        (∀ i (hi : i < k),
          ruleFires (lowerL q.data) (rules.get ⟨i, Nat.lt_trans hi hk⟩) = false) →
        processNaturalLanguageQuery q = ⟨(rules.get ⟨k, hk⟩).category, false⟩) ∧
    (∀ q : String,
        includesL (lowerL q.data) "how many users".data = true →
        includesL (lowerL q.data) "revenue".data = true →
        processNaturalLanguageQuery q = ⟨"user_metrics", false⟩) := by
  constructor
  · intro q k hk hfire hearlier
    have hfind : rules.find? (fun r => ruleFires (lowerL q.data) r)
        = some (rules.get ⟨k, hk⟩) :=
      findFirstHit _ rules k hk hfire hearlier
    simp [processNaturalLanguageQuery, keywordClassify, hfind]
  · intro q h1 h2
    have hfire :
        ruleFires (lowerL q.data)
          ⟨.anyOf ["how many users", "user count", "total users"], "user_metrics"⟩ = true := by
      simp [ruleFires, h1]
    have hfind : rules.find? (fun r => ruleFires (lowerL q.data) r)
        = some ⟨.anyOf ["how many users", "user count", "total users"], "user_metrics"⟩ := by
      simp only [rules]
      rw [List.find?_cons_of_pos _ hfire]
    simp [processNaturalLanguageQuery, keywordClassify, hfind]

/-- Closed witness for the first-rule-wins theorem, instantiating both parts
at concrete questions. -/
theorem classifier_first_rule_wins_witness :
    processNaturalLanguageQuery "user count" = ⟨"user_metrics", false⟩ ∧
    processNaturalLanguageQuery "how many users revenue" = ⟨"user_metrics", false⟩ :=
  ⟨classifier_first_rule_wins.1 "user count" 0 (by decide) (by decide)
      (fun i hi => absurd hi (Nat.not_lt_zero i)),
    classifier_first_rule_wins.2 "how many users revenue" (by decide) (by decide)⟩

/-- C2: `updateConfidence` returns exactly 1/2 whenever the identifier's
implemented counter is 0 (including identifiers never reported, whose lazy
default pattern has all counters 0), and otherwise returns the ratio
successful/implemented clamped by `min 0.95 (max 0.1 _)`; the returned value
always lies within [0.1, 0.95]; and the two-call trace
`trackOutcome "y" true improved=true` then `trackOutcome "y" true
improved=false` leaves counters (2, 2, 1) and returns confidence 1/2 from
the second call. -/
theorem updateConfidence_contract :
    (∀ (m : PatternMap) (id : String),
        updateConfidence m id =
          if (getPattern m id).implemented = 0 then 1 / 2
          else
            min (95 / 100) (max (1 / 10)
              (((getPattern m id).successful : ℚ) /
                ((getPattern m id).implemented : ℚ)))) ∧
    (∀ (m : PatternMap) (id : String),
        1 / 10 ≤ updateConfidence m id ∧ updateConfidence m id ≤ 95 / 100) ∧
    (trackOutcome (trackOutcome emptyPatterns "y" true true).2 "y" true false).1 = 1 / 2 ∧
    getPattern (trackOutcome (trackOutcome emptyPatterns "y" true true).2 "y" true false).2 "y"
      = ⟨2, 2, 1⟩ := by
  refine ⟨?_, ?_, by decide, by decide⟩
  · intro m id
    unfold updateConfidence getPattern
    cases m id <;> simp
  · intro m id
    unfold updateConfidence
    cases m id with
    | none => norm_num
    | some p =>
      by_cases h : p.implemented = 0
      · simp only [h, if_true]; norm_num
      · simp only [h, if_false]
        refine ⟨le_min (by norm_num) (le_max_left _ _), min_le_left _ _⟩

/-- C3: evaluation of the code on the degenerate dataset whose three records
lack `topAction`, `underused` and `biggest`: the insight list is empty and
the summary is produced without raising, but the average confidence is the
JS number NaN (formatted as the string NaN%), not the defined zero value the
specification mandates. -/
theorem emptySynthesis_returns_nan :
    (synthesizeInsights ⟨{}, {}, {}⟩).insights = [] ∧
    (synthesizeInsights ⟨{}, {}, {}⟩).summary.averageConfidence = JsNum.nan ∧
    JsNum.nan ≠ JsNum.val 0 ∧
    (synthesizeInsights ⟨{}, {}, {}⟩).summary.totalInsights = 0 ∧
    (synthesizeInsights ⟨{}, {}, {}⟩).summary.topRecommendation = none :=
  ⟨by decide, by decide, by decide, by decide, by decide⟩

set_option maxRecDepth 400000 in
/-- C4 fails on the code: on the actual full-analysis data, with all three
triggering fields present, the insight list returned by
`analyzeUserBehavior` is NOT in the rule-evaluation order retention,
adoption, onboarding — the in-place sort performed while producing the
executive summary has reordered the very list that is returned. -/
theorem analyzeUserBehavior_not_rule_order :
    analyzeUserBehavior.insights.map Insight.type
        = ["onboarding", "retention", "adoption"] ∧
    analyzeUserBehavior.insights.map Insight.type
        ≠ ["retention", "adoption", "onboarding"] := by
  exact ⟨by decide, by decide⟩

set_option maxRecDepth 400000 in
/-- C4 amended: `generateExecutiveSummary` sorts the caller's array in
place, so the insight list returned by `synthesizeInsights` (and hence by
`analyzeUserBehavior`) is the rule-order list re-sorted stably by descending
confidence; on the full dataset that is onboarding (0.92), then retention
(0.89), then adoption (0.85). -/
theorem synthesized_insights_sorted_desc :
    (∀ data : AnalysisData,
        (synthesizeInsights data).insights = sortByConfDesc (orchestratorInsights data)) ∧
    analyzeUserBehavior.insights.map Insight.confidence
        = [92 / 100, 89 / 100, 85 / 100] ∧
    analyzeUserBehavior.insights =
      sortByConfDesc (orchestratorInsights
        ⟨getRecordFields "feature_adoption", getRecordFields "retention_metrics",
          getRecordFields "onboarding_metrics"⟩) :=
  ⟨fun _ => rfl, by decide, by decide⟩

/-- C5 fails on the code: synthesizing a `competitive_metrics` result that
has no `win_loss_analysis` field throws a TypeError (property `win_rate`
read on `undefined`) instead of yielding an empty list. -/
theorem competitive_missing_field_throws :
    generateInsightsFromResult { type := "competitive_metrics" }
        = .error "TypeError: cannot read win_rate of undefined" ∧
    generateInsightsFromResult { type := "competitive_metrics" } ≠ .ok [] := by
  refine ⟨rfl, fun h => ?_⟩
  have h2 : (Except.error "TypeError: cannot read win_rate of undefined" :
      Except String (List SynthInsight)) = .ok [] := h
  exact Except.noConfusion h2

/-- Success flag of a JS call that returned normally. -/
theorem exceptOk_ok {ε α : Type} (x : α) : exceptOk (Except.ok x : Except ε α) = true := rfl

/-- C5 amended: the per-category synthesizer succeeds exactly when the
category is not `competitive_metrics` or the `win_loss_analysis` object is
present; in each guarded category an absent triggering field yields the
empty list (as does the switch default), except that a
`competitive_metrics` result without `win_loss_analysis` throws. -/
theorem synthesizer_totality_except_competitive :
    (∀ r : SynthResult,
        exceptOk (generateInsightsFromResult r)
          = (r.type != "competitive_metrics" || r.win_loss_analysis.isSome)) ∧
    generateInsightsFromResult { type := "user_metrics" } = .ok [] ∧
    generateInsightsFromResult { type := "revenue_metrics" } = .ok [] ∧
    generateInsightsFromResult { type := "retention_metrics" } = .ok [] ∧
    generateInsightsFromResult { type := "onboarding_metrics" } = .ok [] ∧
    generateInsightsFromResult { type := "feature_adoption" } = .ok [] ∧
    generateInsightsFromResult { type := "product_health" } = .ok [] ∧
    generateInsightsFromResult { type := "growth_metrics" } = .ok [] ∧
    generateInsightsFromResult
        { type := "competitive_metrics", win_loss_analysis := some {} } = .ok [] := by
  refine ⟨?_, rfl, rfl, rfl, rfl, rfl, rfl, rfl, rfl⟩
  intro r
  simp only [generateInsightsFromResult]
  by_cases h1 : r.type = "user_metrics"
  · rw [if_pos h1, exceptOk_ok,
      bne_iff_ne.mpr (show r.type ≠ "competitive_metrics" by rw [h1]; decide), Bool.true_or]
  rw [if_neg h1]
  by_cases h2 : r.type = "revenue_metrics"
  · rw [if_pos h2, exceptOk_ok,
      bne_iff_ne.mpr (show r.type ≠ "competitive_metrics" by rw [h2]; decide), Bool.true_or]
  rw [if_neg h2]
  by_cases h3 : r.type = "retention_metrics"
  · rw [if_pos h3, exceptOk_ok,
      bne_iff_ne.mpr (show r.type ≠ "competitive_metrics" by rw [h3]; decide), Bool.true_or]
  rw [if_neg h3]
  by_cases h4 : r.type = "onboarding_metrics"
  · rw [if_pos h4, exceptOk_ok,
      bne_iff_ne.mpr (show r.type ≠ "competitive_metrics" by rw [h4]; decide), Bool.true_or]
  rw [if_neg h4]
  by_cases h5 : r.type = "feature_adoption"
  · rw [if_pos h5, exceptOk_ok,
      bne_iff_ne.mpr (show r.type ≠ "competitive_metrics" by rw [h5]; decide), Bool.true_or]
  rw [if_neg h5]
  by_cases h6 : r.type = "product_health"
  · rw [if_pos h6, exceptOk_ok,
      bne_iff_ne.mpr (show r.type ≠ "competitive_metrics" by rw [h6]; decide), Bool.true_or]
  rw [if_neg h6]
  by_cases h7 : r.type = "competitive_metrics"
  · rw [if_pos h7]
    cases hw : r.win_loss_analysis with
    | none => simp [exceptOk, h7, hw]
    | some w => simp [exceptOk, h7, hw]
  rw [if_neg h7, exceptOk_ok, bne_iff_ne.mpr h7, Bool.true_or]

/-- C8: synthesis of a `user_metrics` result yields exactly one insight, of
confidence 0.87, when the growth rate exceeds 0.10, and no insight
otherwise, whatever the other fields hold — in both the interactive variant
and the REST variant of `generateInsightsFromResult`; concretely, growth
rate 0.15 gives one insight of confidence 0.87 and growth rate 0.05 gives
none. -/
theorem user_metrics_insight_confidence :
    (∀ (r : SynthResult) (g : Option ℚ),
        (generateInsightsFromResult { r with type := "user_metrics", growth_rate := g }).map
            (List.map SynthInsight.confidence)
          = .ok (if jsGtNum g (1 / 10) then [87 / 100] else [])) ∧
    (∀ (now : Nat) (ts question : String) (r : SynthResult) (g : Option ℚ),
        (apiGenerateInsightsFromResult now ts
              { r with type := "user_metrics", growth_rate := g } question).map
            ApiInsight.confidence
          = if jsGtNum g (1 / 10) then [87 / 100] else []) ∧
    (generateInsightsFromResult
          { type := "user_metrics", growth_rate := some (15 / 100) }).map
        (List.map SynthInsight.confidence) = .ok [87 / 100] ∧
    generateInsightsFromResult { type := "user_metrics", growth_rate := some (5 / 100) }
      = .ok [] := by
  refine ⟨?_, ?_, rfl, rfl⟩
  · intro r g
    have hred : generateInsightsFromResult { r with type := "user_metrics", growth_rate := g }
        = .ok (if jsGtNum g (1 / 10) then
            [⟨"Strong user growth at " ++ toFixed1 (g.getD 0 * 100)
                ++ "% indicates healthy market demand",
              87 / 100,
              "Invest in user acquisition channels that are working",
              "+25% user growth acceleration"⟩]
          else []) := rfl
    rw [hred]
    cases hg : jsGtNum g (1 / 10)
    · rfl
    · rfl
  · intro now ts question r g
    have hred : apiGenerateInsightsFromResult now ts
          { r with type := "user_metrics", growth_rate := g } question
        = (if jsGtNum g (1 / 10) then
            [⟨"insight_" ++ toString now ++ "_growth",
              "Strong user growth at " ++ toFixed1 (g.getD 0 * 100)
                ++ "% indicates healthy market demand",
              87 / 100,
              "Invest in user acquisition channels that are working",
              "+25% user growth acceleration",
              "growth", question, ts⟩]
          else []) := rfl
    rw [hred]
    cases hg : jsGtNum g (1 / 10)
    · rfl
    · rfl

/-- The empty needle is a substring of every string, as with JS includes. -/
theorem containsSub_nil (hay : Str) : containsSub [] hay = true := by
  cases hay <;> simp [containsSub, isPrefixL]

/-- A needle starting with a non-space character is not a prefix of an
all-space string. -/
theorem isPrefixL_nonspace (c : Char) (hc : c ≠ ' ') (n : Str) :
    ∀ hay : Str, (∀ x ∈ hay, x = ' ') → isPrefixL (c :: n) hay = false := by
  intro hay hall
  cases hay with
  | nil => rfl
  | cons b bs =>
    have hb : b = ' ' := hall b (List.mem_cons_self b bs)
    have hcb : (c == ' ') = false := beq_eq_false_iff_ne.mpr hc
    simp [isPrefixL, hb, hcb]

/-- A needle starting with a non-space character is not a substring of an
all-space string. -/
theorem containsSub_nonspace (c : Char) (hc : c ≠ ' ') (n : Str) :
    ∀ hay : Str, (∀ x ∈ hay, x = ' ') → containsSub (c :: n) hay = false := by
  intro hay
  induction hay with
  | nil => intro; rfl
  | cons b bs ih =>
    intro hall
    have h1 := isPrefixL_nonspace c hc n (b :: bs) hall
    have h2 := ih fun x hx => hall x (List.mem_cons_of_mem b hx)
    simp [containsSub, h1, h2]

/-- On an all-space (or empty) lower-cased query no keyword rule fires. -/
theorem keywordClassify_space (lq : Str) (hsp : ∀ x ∈ lq, x = ' ') :
    keywordClassify lq = none := by
  have key : ∀ (t : String) (c : Char) (rest : Str), t.data = c :: rest → c ≠ ' ' →
      includesL lq t.data = false := by
    intro t c rest ht hc
    rw [ht]
    exact containsSub_nonspace c hc rest lq hsp
  unfold keywordClassify
  rw [Option.map_eq_none']
  rw [List.find?_eq_none]
  intro r hr
  fin_cases hr
  · simp [ruleFires, key "how many users" 'h' _ rfl (by decide),
      key "user count" 'u' _ rfl (by decide), key "total users" 't' _ rfl (by decide)]
  · simp [ruleFires, key "revenue" 'r' _ rfl (by decide), key "mrr" 'm' _ rfl (by decide),
      key "money" 'm' _ rfl (by decide), key "income" 'i' _ rfl (by decide)]
  · simp [ruleFires, key "engagement" 'e' _ rfl (by decide),
      key "active" 'a' _ rfl (by decide), key "usage" 'u' _ rfl (by decide)]
  · simp [ruleFires, key "growth" 'g' _ rfl (by decide),
      key "growing" 'g' _ rfl (by decide), key "trend" 't' _ rfl (by decide)]
  · simp [ruleFires, key "features" 'f' _ rfl (by decide)]
  · simp [ruleFires, key "retention" 'r' _ rfl (by decide),
      key "stay" 's' _ rfl (by decide), key "return" 'r' _ rfl (by decide)]
  · simp [ruleFires, key "drop" 'd' _ rfl (by decide), key "abandon" 'a' _ rfl (by decide),
      key "onboarding" 'o' _ rfl (by decide), key "leave" 'l' _ rfl (by decide)]
  · simp [ruleFires, key "support" 's' _ rfl (by decide), key "help" 'h' _ rfl (by decide),
      key "tickets" 't' _ rfl (by decide), key "issues" 'i' _ rfl (by decide)]
  · simp [ruleFires, key "convert" 'c' _ rfl (by decide), key "upgrade" 'u' _ rfl (by decide),
      key "paid" 'p' _ rfl (by decide), key "trial" 't' _ rfl (by decide)]
  · simp [ruleFires, key "performance" 'p' _ rfl (by decide), key "speed" 's' _ rfl (by decide),
      key "slow" 's' _ rfl (by decide), key "load" 'l' _ rfl (by decide)]
  · simp [ruleFires, key "competitor" 'c' _ rfl (by decide),
      key "market" 'm' _ rfl (by decide), key "competitive" 'c' _ rfl (by decide)]
  · simp [ruleFires, key "health" 'h' _ rfl (by decide), key "nps" 'n' _ rfl (by decide),
      key "satisfaction" 's' _ rfl (by decide)]

/-- No split of any character list is the empty list of pieces. -/
theorem splitSp_ne_nil : ∀ l : Str, splitSp l ≠ [] := by
  intro l
  induction l with
  | nil => simp [splitSp]
  | cons c rest ih =>
    unfold splitSp
    cases h : splitSp rest with
    | nil => simp
    | cons p ps => by_cases hc : c = ' ' <;> simp [hc]

/-- Splitting an all-space string on spaces produces an empty piece. -/
theorem nil_mem_splitSp_space : ∀ l : Str, (∀ x ∈ l, x = ' ') → [] ∈ splitSp l := by
  intro l
  induction l with
  | nil => intro; simp [splitSp]
  | cons c rest ih =>
    intro hall
    have hc : c = ' ' := hall c (List.mem_cons_self c rest)
    unfold splitSp
    cases h : splitSp rest with
    | nil => exact absurd h (splitSp_ne_nil rest)
    | cons p ps => simp [hc]

set_option maxRecDepth 400000 in
/-- C6 fails on the code: the empty question does not fall through to the
`general_response` sentinel — the catalog search matches every category (an
empty search token is a substring of everything), so the empty question
classifies to the first catalog category, `user_metrics`, via the search
path. -/
theorem empty_query_not_general_response :
    processNaturalLanguageQuery "" = ⟨"user_metrics", true⟩ ∧
    processNaturalLanguageQuery "" ≠ ⟨"general_response", false⟩ :=
  ⟨by decide, by decide⟩

set_option maxRecDepth 400000 in
/-- C6 amended: for every question made only of space characters (including
the empty question) no keyword rule fires, but the fallback search keeps
every category, because splitting the question on spaces yields an empty
token, which is a substring of every category name; the result is therefore
the first catalog category `user_metrics` with the search flag set, not the
sentinel.  A whitespace-only question whose whitespace is not the space
character (e.g. a tab) matches no category and does reach the sentinel. -/
theorem space_query_matches_first_category :
    (∀ q : String, (∀ x ∈ q.data, x = ' ') →
        keywordClassify (lowerL q.data) = none ∧
        searchData q = mockBusinessData.map Prod.fst ∧
        processNaturalLanguageQuery q = ⟨"user_metrics", true⟩) ∧
    processNaturalLanguageQuery "\t" = ⟨"general_response", false⟩ := by
  refine ⟨?_, by decide⟩
  intro q hq
  have hlsp : ∀ x ∈ lowerL q.data, x = ' ' := by
    intro x hx
    rcases List.mem_map.mp hx with ⟨y, hy, rfl⟩
    rw [hq y hy]
    decide
  have hkc := keywordClassify_space (lowerL q.data) hlsp
  have hsearch : searchData q = mockBusinessData.map Prod.fst := by
    unfold searchData
    have hmem : [] ∈ splitSp (lowerL q.data) := nil_mem_splitSp_space _ hlsp
    have hfil : (mockBusinessData.filter fun e =>
        (splitSp (lowerL q.data)).any fun term =>
          includesL e.1.data term || includesL (lowerL (jstr e.2).data) term)
        = mockBusinessData := by
      apply List.filter_eq_self.mpr
      intro e he
      apply List.any_eq_true.mpr
      exact ⟨[], hmem, by simp [includesL, containsSub_nil]⟩
    dsimp only
    rw [hfil]
  refine ⟨hkc, hsearch, ?_⟩
  simp [processNaturalLanguageQuery, hkc, hsearch, mockBusinessData]

/-- Closed witness for the space-question theorem at the one-space question. -/
theorem space_query_matches_first_category_witness :
    processNaturalLanguageQuery " " = ⟨"user_metrics", true⟩ :=
  (space_query_matches_first_category.1 " " (by decide)).2.2

set_option maxRecDepth 400000 in
/-- C7: the `feature_adoption` rule needs both of its triggers — the keyword
phase never selects `feature_adoption` for a question not containing the
substring `features`; the question `adoption` alone fires no keyword rule at
all and instead falls through to the catalog search, which matches the
category by name (search flag set). -/
theorem feature_adoption_requires_conjunction :
    (∀ q : String,
        includesL (lowerL q.data) "features".data = false →
        keywordClassify (lowerL q.data) ≠ some "feature_adoption") ∧
    keywordClassify (lowerL "adoption".data) = none ∧
    processNaturalLanguageQuery "adoption" = ⟨"feature_adoption", true⟩ := by
  refine ⟨?_, by decide, by decide⟩
  intro q hfeat hcontra
  unfold keywordClassify at hcontra
  rcases Option.map_eq_some'.mp hcontra with ⟨r, hfind, hcat⟩
  have hmem : r ∈ rules := List.mem_of_find?_eq_some hfind
  have hfires : ruleFires (lowerL q.data) r = true := List.find?_some hfind
  fin_cases hmem <;> simp_all [ruleFires]

/-- Closed witness for the conjunction-requirement theorem at `adoption`. -/
theorem feature_adoption_requires_conjunction_witness :
    keywordClassify (lowerL "adoption".data) ≠ some "feature_adoption" :=
  feature_adoption_requires_conjunction.1 "adoption" (by decide)

/-- One `trackOutcome` call updates exactly the called identifier's pattern:
`suggested` gains one, `implemented` gains one exactly when the implemented
flag is set, `successful` gains one exactly when additionally the improved
flag is set; every other identifier's pattern is untouched. -/
theorem trackOutcome_getPattern (m : PatternMap) (id : String)
    (impl impr : Bool) (x : String) :
    getPattern (trackOutcome m id impl impr).2 x
      = if x = id then
          ⟨(getPattern m id).suggested + 1,
           (getPattern m id).implemented + (if impl then 1 else 0),
           (getPattern m id).successful + (if impl && impr then 1 else 0)⟩
        else getPattern m x := by
  by_cases hx : x = id
  · subst hx
    cases impl <;> cases impr <;> simp [trackOutcome, getPattern]
  · simp [trackOutcome, getPattern, hx]

/-- The counter ordering `successful ≤ implemented ≤ suggested` is preserved
by any run of `trackOutcome` calls from any map already satisfying it. -/
theorem outcomes_inv_aux (calls : List OutcomeCall) :
    ∀ m : PatternMap,
      (∀ id, (getPattern m id).successful ≤ (getPattern m id).implemented ∧
             (getPattern m id).implemented ≤ (getPattern m id).suggested) →
      ∀ id,
        (getPattern (calls.foldl
            (fun m c => (trackOutcome m c.id c.implemented c.improved).2) m) id).successful
          ≤ (getPattern (calls.foldl
              (fun m c => (trackOutcome m c.id c.implemented c.improved).2) m) id).implemented ∧
        (getPattern (calls.foldl
            (fun m c => (trackOutcome m c.id c.implemented c.improved).2) m) id).implemented
          ≤ (getPattern (calls.foldl
              (fun m c => (trackOutcome m c.id c.implemented c.improved).2) m) id).suggested := by
  induction calls with
  | nil => intro m h id; exact h id
  | cons c rest ih =>
    intro m h id
    apply ih
    intro j
    rw [trackOutcome_getPattern]
    by_cases hj : j = c.id
    · rw [if_pos hj]
      have hc := h c.id
      cases c.implemented <;> cases c.improved <;> simp <;> omega
    · rw [if_neg hj]
      exact h j

/-- C9: for every sequence of reported outcomes, every identifier's counters
satisfy `successful ≤ implemented ≤ suggested` (they are naturals, hence
also nonnegative), and one call changes exactly the called identifier's
pattern, incrementing `suggested` by one, `implemented` by one exactly when
the implemented flag is set, and `successful` by one exactly when both flags
are set — so counters never decrease. -/
theorem pattern_counters_invariant :
    (∀ (calls : List OutcomeCall) (id : String),
        (getPattern (runOutcomes calls) id).successful
            ≤ (getPattern (runOutcomes calls) id).implemented ∧
        (getPattern (runOutcomes calls) id).implemented
            ≤ (getPattern (runOutcomes calls) id).suggested) ∧
    (∀ (m : PatternMap) (id : String) (impl impr : Bool) (x : String),
        getPattern (trackOutcome m id impl impr).2 x
          = if x = id then
              ⟨(getPattern m id).suggested + 1,
               (getPattern m id).implemented + (if impl then 1 else 0),
               (getPattern m id).successful + (if impl && impr then 1 else 0)⟩
            else getPattern m x) := by
  constructor
  · intro calls id
    exact outcomes_inv_aux calls emptyPatterns
      (fun j => by simp [getPattern, emptyPatterns]) id
  · exact trackOutcome_getPattern

/-- Running any sequence of core operations leaves the stored-insights list
exactly as it started. -/
theorem runOps_insights (ops : List AgentOp) :
    ∀ st : AgentState, (runOps st ops).insights = st.insights := by
  induction ops with
  | nil => intro st; rfl
  | cons op rest ih =>
    intro st
    have h1 : (applyOp st op).1.insights = st.insights := by cases op <;> rfl
    calc (runOps st (op :: rest)).insights
        = (runOps (applyOp st op).1 rest).insights := rfl
      _ = (applyOp st op).1.insights := ih _
      _ = st.insights := h1

/-- C10: no core operation writes the agent's stored-insights list — each
operation preserves it, so after any operation sequence on a fresh agent it
is still the empty list the constructor created, and the stored-insight
listing route filters an empty collection and answers the empty list
whatever its confidence or type filters are. -/
theorem insights_list_never_mutated :
    (∀ (st : AgentState) (op : AgentOp), ((applyOp st op).1).insights = st.insights) ∧
    (∀ ops : List AgentOp, (runOps initialAgent ops).insights = []) ∧
    (∀ (ops : List AgentOp) (minConfidence : ℚ) (insightType : Option String),
        apiListInsights (runOps initialAgent ops) minConfidence insightType = []) := by
  have hrun : ∀ ops : List AgentOp, (runOps initialAgent ops).insights = [] := fun ops =>
    (runOps_insights ops initialAgent).trans rfl
  refine ⟨fun st op => by cases op <;> rfl, hrun, ?_⟩
  intro ops mc ty
  simp [apiListInsights, hrun ops]

end MixpanelAgent
